import Mathlib

/-!
Verification of `ansi_colors_v2.py`: a script whose single function
`show_ansi_colors` prints a reference table of ANSI SGR color codes
(foreground colors, background colors, five combinations, usage notes).

The embedding below translates the script's data and string formatting
line by line.  Python's `print` is modelled by collecting, in order, the
string each `print` call receives; dictionaries (which iterate in
insertion order in Python 3.7+) are modelled as association lists;
`str.ljust` is modelled by `ljust`; dictionary subscription, which can
raise `KeyError`, is modelled by an `Option`-returning lookup.
-/

/-- The actual escape control byte (character 27), written `\033` inside
Python single-backslash string literals. -/
def ESC : String := String.mk [Char.ofNat 27]

/-- Python `str.ljust(width)`: pad on the right with spaces up to `width`;
a string at least `width` long is returned unchanged. -/
def ljust (s : String) (width : Nat) : String :=
  s ++ String.mk (List.replicate (width - s.length) ' ')

/-- `fg_colors` from `ansi_colors_v2.py` lines 8-25: foreground color
name to numeric-code-string, in insertion order. -/
def fg_colors : List (String × String) :=
  [ ("Black", "30"),
    ("Red", "31"),
    ("Green", "32"),
    ("Yellow", "33"),
    ("Blue", "34"),
    ("Magenta", "35"),
    ("Cyan", "36"),
    ("White", "37"),
    ("Bright Black", "90"),
    ("Bright Red", "91"),
    ("Bright Green", "92"),
    ("Bright Yellow", "93"),
    ("Bright Blue", "94"),
    ("Bright Magenta", "95"),
    ("Bright Cyan", "96"),
    ("Bright White", "97") ]

/-- `bg_colors` from `ansi_colors_v2.py` lines 28-45: background color
name to numeric-code-string, in insertion order. -/
def bg_colors : List (String × String) :=
  [ ("Black", "40"),
    ("Red", "41"),
    ("Green", "42"),
    ("Yellow", "43"),
    ("Blue", "44"),
    ("Magenta", "45"),
    ("Cyan", "46"),
    ("White", "47"),
    ("Bright Black", "100"),
    ("Bright Red", "101"),
    ("Bright Green", "102"),
    ("Bright Yellow", "103"),
    ("Bright Blue", "104"),
    ("Bright Magenta", "105"),
    ("Bright Cyan", "106"),
    ("Bright White", "107") ]

/-- `reset = '\033[0m'` (line 48): the actual-control-byte reset sequence. -/
def reset : String := ESC ++ "[0m"

/-- The documentation text `ansi_seq = f'\\033[{code}m'` (lines 58 and 67):
a literal backslash followed by `033[`, the code digits, and `m`; this is
readable text, not a control sequence. -/
def ansi_seq (code : String) : String := "\\033[" ++ code ++ "m"

/-- The documentation text `ansi_seq = f'\\033[{fg_code};{bg_code}m'`
(line 88) used in the combinations section. -/
def ansi_seq_combo (fg_code bg_code : String) : String :=
  "\\033[" ++ fg_code ++ ";" ++ bg_code ++ "m"

/-- One line of the FOREGROUND COLORS section (lines 57-60):
`f'\033[{code}m{name.ljust(15)}\033[0m'` followed by a space, the
documentation text left-justified to 10, a space, and `Example text`. -/
def fg_line (name code : String) : String :=
  let colored_text := ESC ++ "[" ++ code ++ "m" ++ ljust name 15 ++ ESC ++ "[0m"
  colored_text ++ " " ++ ljust (ansi_seq code) 10 ++ " Example text"

/-- The contrast rule of line 69:
`text_color = '97' if code in ['40','41','42','43','44','45','46','100'] else '30'`. -/
def text_color (code : String) : String :=
  if code ∈ ["40", "41", "42", "43", "44", "45", "46", "100"] then "97" else "30"

/-- One line of the BACKGROUND COLORS section (lines 66-71):
`f'\033[{text_color}m\033[{code}m{name.ljust(15)}\033[0m'` followed by a
space, the documentation text left-justified to 10, a space, and
`Example text`. -/
def bg_line (name code : String) : String :=
  let colored_bg := ESC ++ "[" ++ text_color code ++ "m" ++ ESC ++ "[" ++ code ++ "m"
    ++ ljust name 15 ++ ESC ++ "[0m"
  colored_bg ++ " " ++ ljust (ansi_seq code) 10 ++ " Example text"

/-- `combinations` from lines 77-83: the five fixed
(foreground name, background name) pairs, in order. -/
def combinations : List (String × String) :=
  [ ("Bright White", "Blue"),
    ("Yellow", "Bright Black"),
    ("Bright Cyan", "Magenta"),
    ("Bright Red", "Bright Yellow"),
    ("Black", "Bright White") ]

/-- Python dictionary subscription `d[k]` over an insertion-ordered
association list: the value of the first matching key, `none` when the
key is absent (where Python raises `KeyError`). -/
def dict_get (d : List (String × String)) (k : String) : Option String :=
  (d.find? (fun p => p.1 == k)).map (fun p => p.2)

/-- One line of the COMBINATIONS section (lines 85-90):
`f'\033[{fg_code};{bg_code}m{fg_name + " on " + bg_name.ljust(25)}\033[0m'`
followed by a space, the combined documentation text left-justified to 15,
a space, and `Example text`; `none` when a name is not a table key. -/
def combination_line (fg_name bg_name : String) : Option String := do
  let fg_code ← dict_get fg_colors fg_name
  let bg_code ← dict_get bg_colors bg_name
  let colored_text := ESC ++ "[" ++ fg_code ++ ";" ++ bg_code ++ "m"
    ++ (fg_name ++ " on " ++ ljust bg_name 25) ++ ESC ++ "[0m"
  pure (colored_text ++ " " ++ ljust (ansi_seq_combo fg_code bg_code) 15 ++ " Example text")

/-- The 16 printed lines of the FOREGROUND COLORS section, in table order. -/
def fg_section : List String := fg_colors.map (fun p => fg_line p.1 p.2)

/-- The 16 printed lines of the BACKGROUND COLORS section, in table order. -/
def bg_section : List String := bg_colors.map (fun p => bg_line p.1 p.2)

/-- The printed lines of the COMBINATIONS section, in order; `none` if any
lookup would raise `KeyError`. -/
def combo_section : Option (List String) :=
  combinations.mapM (fun p => combination_line p.1 p.2)

/-- The banner `"="*80`. -/
def banner : String := String.mk (List.replicate 80 '=')

/-- The section divider `"-"*40`. -/
def divider : String := String.mk (List.replicate 40 '-')

/-- `show_ansi_colors()` (lines 6-97): the strings passed to `print`, in
order.  Takes the same (empty) argument list as the Python function;
`none` models the program aborting on `KeyError`. -/
def show_ansi_colors (_ : Unit) : Option (List String) := do
  let combos ← combo_section
  pure <|
    [banner, "ANSI COLOR CODEMAP", banner, "\nFOREGROUND COLORS:", divider]
    ++ fg_section
    ++ ["\nBACKGROUND COLORS:", divider]
    ++ bg_section
    ++ ["\nCOMBINATIONS (Foreground + Background):", divider]
    ++ combos
    ++ [ "\nUSAGE NOTES:", divider,
         "1. All ANSI sequences start with \\033[ and end with m",
         "2. Separate multiple codes with semicolons (e.g., \\033[31;44m)",
         "3. Reset formatting with \\033[0m",
         banner ]

/-- Decimal value of a digit string (used to read the numeric code out of
a code string such as `"107"`). -/
def digits_val (s : String) : Nat :=
  s.data.foldl (fun acc c => 10 * acc + (c.toNat - 48)) 0

/-- The fixed foreground reference table as the spec states it:
Black=30 through White=37 and the Bright variants 90-97 in the same order. -/
def spec_fg_reference : List (String × String) :=
  [ ("Black", "30"), ("Red", "31"), ("Green", "32"), ("Yellow", "33"),
    ("Blue", "34"), ("Magenta", "35"), ("Cyan", "36"), ("White", "37"),
    ("Bright Black", "90"), ("Bright Red", "91"), ("Bright Green", "92"),
    ("Bright Yellow", "93"), ("Bright Blue", "94"), ("Bright Magenta", "95"),
    ("Bright Cyan", "96"), ("Bright White", "97") ]

/-- The fixed background reference table as the spec states it:
Black=40 through White=47 and the Bright variants 100-107 in the same order. -/
def spec_bg_reference : List (String × String) :=
  [ ("Black", "40"), ("Red", "41"), ("Green", "42"), ("Yellow", "43"),
    ("Blue", "44"), ("Magenta", "45"), ("Cyan", "46"), ("White", "47"),
    ("Bright Black", "100"), ("Bright Red", "101"), ("Bright Green", "102"),
    ("Bright Yellow", "103"), ("Bright Blue", "104"), ("Bright Magenta", "105"),
    ("Bright Cyan", "106"), ("Bright White", "107") ]

/-- The set of background codes the spec calls dark, which must get
bright-white (97) contrast text. -/
def spec_dark_backgrounds : List String :=
  ["40", "41", "42", "43", "44", "45", "46", "100"]

/-- The declared iteration order of color names per the spec. -/
def declared_order : List String :=
  [ "Black", "Red", "Green", "Yellow", "Blue", "Magenta", "Cyan", "White",
    "Bright Black", "Bright Red", "Bright Green", "Bright Yellow",
    "Bright Blue", "Bright Magenta", "Bright Cyan", "Bright White" ]

/-- The five combination pairs as the spec declares them, in order. -/
def spec_combinations : List (String × String) :=
  [ ("Bright White", "Blue"),
    ("Yellow", "Bright Black"),
    ("Bright Cyan", "Magenta"),
    ("Bright Red", "Bright Yellow"),
    ("Black", "Bright White") ]

/-- C1: every numeric code of the 16 foreground and 16 background entries
equals the fixed reference table of the spec, and the printed sections are
built from exactly those tables. -/
theorem codes_match_reference_table :
    fg_colors = spec_fg_reference ∧ bg_colors = spec_bg_reference ∧
    fg_section = spec_fg_reference.map (fun p => fg_line p.1 p.2) ∧
    bg_section = spec_bg_reference.map (fun p => bg_line p.1 p.2) := by
  decide

/-- C2: for every background entry, the contrast foreground code emitted at
the start of its line is 97 exactly when the background code is in the fixed
set {40,41,42,43,44,45,46,100}, and 30 otherwise. -/
theorem bg_contrast_fixed_membership : ∀ p ∈ bg_colors,
    (p.2 ∈ spec_dark_backgrounds →
      text_color p.2 = "97" ∧ (bg_line p.1 p.2).data.take 5 = (ESC ++ "[97m").data) ∧
    (p.2 ∉ spec_dark_backgrounds →
      text_color p.2 = "30" ∧ (bg_line p.1 p.2).data.take 5 = (ESC ++ "[30m").data) := by
  decide

/-- Witness for C2 at the dark background `("Black", "40")`. -/
theorem bg_contrast_fixed_membership_witness :
    text_color "40" = "97" ∧ (bg_line "Black" "40").data.take 5 = (ESC ++ "[97m").data :=
  (bg_contrast_fixed_membership ("Black", "40") (by decide)).1 (by decide)

/-- C3: both sections iterate their 16 entries in the declared insertion
order Black..White then the Bright variants, and print one line per entry
in that order. -/
theorem sections_in_declared_order :
    fg_colors.map Prod.fst = declared_order ∧
    bg_colors.map Prod.fst = declared_order ∧
    fg_section = fg_colors.map (fun p => fg_line p.1 p.2) ∧
    bg_section = bg_colors.map (fun p => bg_line p.1 p.2) ∧
    fg_section.length = 16 ∧ bg_section.length = 16 := by
  decide

/-- C4: the COMBINATIONS section has exactly the five declared name pairs in
the declared order; each pair looks up exactly the two declared names, and
each styled line joins both codes as `fg_code;bg_code`. -/
theorem combinations_exact_pairs :
    combinations = spec_combinations ∧
    spec_combinations.map (fun p => (dict_get fg_colors p.1, dict_get bg_colors p.2)) =
      [ (some "97", some "44"), (some "33", some "100"), (some "96", some "45"),
        (some "91", some "103"), (some "30", some "107") ] ∧
    combo_section = some
      [ ESC ++ "[" ++ "97" ++ ";" ++ "44" ++ "m" ++ ("Bright White" ++ " on " ++ ljust "Blue" 25)
          ++ reset ++ " " ++ ljust (ansi_seq_combo "97" "44") 15 ++ " Example text",
        ESC ++ "[" ++ "33" ++ ";" ++ "100" ++ "m" ++ ("Yellow" ++ " on " ++ ljust "Bright Black" 25)
          ++ reset ++ " " ++ ljust (ansi_seq_combo "33" "100") 15 ++ " Example text",
        ESC ++ "[" ++ "96" ++ ";" ++ "45" ++ "m" ++ ("Bright Cyan" ++ " on " ++ ljust "Magenta" 25)
          ++ reset ++ " " ++ ljust (ansi_seq_combo "96" "45") 15 ++ " Example text",
        ESC ++ "[" ++ "91" ++ ";" ++ "103" ++ "m" ++ ("Bright Red" ++ " on " ++ ljust "Bright Yellow" 25)
          ++ reset ++ " " ++ ljust (ansi_seq_combo "91" "103") 15 ++ " Example text",
        ESC ++ "[" ++ "30" ++ ";" ++ "107" ++ "m" ++ ("Black" ++ " on " ++ ljust "Bright White" 25)
          ++ reset ++ " " ++ ljust (ansi_seq_combo "30" "107") 15 ++ " Example text" ] := by
  decide

/-- C5: in every printed entry line the documentation column is the literal
characters backslash, 0, 3, 3, `[`, code digits (with `;` between the two
codes for combinations), `m`, and holds no control byte 27, while the styled
column of the same line begins with the actual control byte 27. -/
theorem doc_literal_styled_control_byte :
    (∀ p ∈ fg_colors,
      (ansi_seq p.2).data = ['\\', '0', '3', '3', '['] ++ p.2.data ++ ['m'] ∧
      Char.ofNat 27 ∉ (ansi_seq p.2).data ∧
      (fg_line p.1 p.2).data.head? = some (Char.ofNat 27)) ∧
    (∀ p ∈ bg_colors,
      (ansi_seq p.2).data = ['\\', '0', '3', '3', '['] ++ p.2.data ++ ['m'] ∧
      Char.ofNat 27 ∉ (ansi_seq p.2).data ∧
      (bg_line p.1 p.2).data.head? = some (Char.ofNat 27)) ∧
    (∀ p ∈ fg_colors, ∀ q ∈ bg_colors,
      (ansi_seq_combo p.2 q.2).data =
        ['\\', '0', '3', '3', '['] ++ p.2.data ++ [';'] ++ q.2.data ++ ['m'] ∧
      Char.ofNat 27 ∉ (ansi_seq_combo p.2 q.2).data) ∧
    (∀ p ∈ combinations,
      (combination_line p.1 p.2).map (fun s => s.data.head?) =
        some (some (Char.ofNat 27))) := by
  decide

/-- Witness for C5 at the foreground entry `("Black", "30")`. -/
theorem doc_literal_styled_control_byte_witness :
    (ansi_seq "30").data = ['\\', '0', '3', '3', '['] ++ "30".data ++ ['m'] ∧
    Char.ofNat 27 ∉ (ansi_seq "30").data ∧
    (fg_line "Black" "30").data.head? = some (Char.ofNat 27) :=
  doc_literal_styled_control_byte.1 ("Black", "30") (by decide)

/-- C6: every foreground line is the name left-justified to 15 characters
inside its color code, then the reset sequence, then the documentation text
left-justified to 10 characters, ending in the literal `Example text`. -/
theorem fg_line_layout : ∀ p ∈ fg_colors,
    fg_line p.1 p.2 =
      ESC ++ "[" ++ p.2 ++ "m" ++ ljust p.1 15 ++ reset ++ " "
        ++ ljust (ansi_seq p.2) 10 ++ " Example text" ∧
    (ljust p.1 15).length = 15 ∧
    (ljust (ansi_seq p.2) 10).length = 10 ∧
    (fg_line p.1 p.2).data.drop ((fg_line p.1 p.2).data.length - 12) =
      "Example text".data := by
  decide

/-- Witness for C6 at the entry `("Red", "31")` of the spec's example
scenario. -/
theorem fg_line_layout_witness :
    fg_line "Red" "31" =
      ESC ++ "[" ++ "31" ++ "m" ++ ljust "Red" 15 ++ reset ++ " "
        ++ ljust (ansi_seq "31") 10 ++ " Example text" ∧
    (ljust "Red" 15).length = 15 ∧
    (ljust (ansi_seq "31") 10).length = 10 ∧
    (fg_line "Red" "31").data.drop ((fg_line "Red" "31").data.length - 12) =
      "Example text".data :=
  fg_line_layout ("Red", "31") (by decide)

/-- C7: all 32 stored code values are digit strings whose numeric values lie
in 30-37 or 90-97 (foreground) and 40-47 or 100-107 (background); the tables
hold exactly 16 entries each.  (The tables are plain definitions, never
reassigned after construction.) -/
theorem codes_valid_sgr_ranges :
    (∀ p ∈ fg_colors, p.2.data.all Char.isDigit = true ∧
      ((30 ≤ digits_val p.2 ∧ digits_val p.2 ≤ 37) ∨
       (90 ≤ digits_val p.2 ∧ digits_val p.2 ≤ 97))) ∧
    (∀ p ∈ bg_colors, p.2.data.all Char.isDigit = true ∧
      ((40 ≤ digits_val p.2 ∧ digits_val p.2 ≤ 47) ∨
       (100 ≤ digits_val p.2 ∧ digits_val p.2 ≤ 107))) ∧
    fg_colors.length = 16 ∧ bg_colors.length = 16 := by
  decide

/-- Witness for C7 at the background entry `("Bright White", "107")`. -/
theorem codes_valid_sgr_ranges_witness :
    "107".data.all Char.isDigit = true ∧
    ((40 ≤ digits_val "107" ∧ digits_val "107" ≤ 47) ∨
     (100 ≤ digits_val "107" ∧ digits_val "107" ≤ 107)) :=
  codes_valid_sgr_ranges.2.1 ("Bright White", "107") (by decide)

/-- C8: the renderer is deterministic: the zero-argument entry point yields
the same complete output on any two invocations, and it completes (no
lookup fails). -/
theorem renderer_deterministic : ∀ u v : Unit,
    show_ansi_colors u = show_ansi_colors v ∧
    (show_ansi_colors u).isSome = true := by
  intro u v
  cases u
  cases v
  exact ⟨rfl, by decide⟩

/-- C9: every combination line's styled label is `fg_name on bg_name` with
only the background name left-justified to 25 characters — so label width
varies with the foreground name — and its documentation column is
left-justified to 15 characters. -/
theorem combo_label_layout : ∀ p ∈ combinations,
    combination_line p.1 p.2 =
      (dict_get fg_colors p.1).bind (fun fg_code =>
        (dict_get bg_colors p.2).map (fun bg_code =>
          ESC ++ "[" ++ fg_code ++ ";" ++ bg_code ++ "m"
            ++ (p.1 ++ " on " ++ ljust p.2 25) ++ reset ++ " "
            ++ ljust (ansi_seq_combo fg_code bg_code) 15 ++ " Example text")) ∧
    (ljust p.2 25).length = 25 ∧
    (p.1 ++ " on " ++ ljust p.2 25).length = p.1.length + 4 + 25 ∧
    ljust (p.1 ++ " on " ++ p.2) 25 ≠ p.1 ++ " on " ++ ljust p.2 25 := by
  decide

/-- Witness for C9 at the pair `("Bright White", "Blue")`. -/
theorem combo_label_layout_witness :
    combination_line "Bright White" "Blue" =
      (dict_get fg_colors "Bright White").bind (fun fg_code =>
        (dict_get bg_colors "Blue").map (fun bg_code =>
          ESC ++ "[" ++ fg_code ++ ";" ++ bg_code ++ "m"
            ++ ("Bright White" ++ " on " ++ ljust "Blue" 25) ++ reset ++ " "
            ++ ljust (ansi_seq_combo fg_code bg_code) 15 ++ " Example text")) ∧
    (ljust "Blue" 25).length = 25 ∧
    ("Bright White" ++ " on " ++ ljust "Blue" 25).length = "Bright White".length + 4 + 25 ∧
    ljust ("Bright White" ++ " on " ++ "Blue") 25 ≠ "Bright White" ++ " on " ++ ljust "Blue" 25 :=
  combo_label_layout ("Bright White", "Blue") (by decide)

/-- C10: every background line styles its name with two separate SGR
sequences — contrast code first, then background code — not one combined
`fg;bg` sequence, and its documentation column shows only the background
code (no semicolon, no contrast code). -/
theorem bg_line_two_sequences : ∀ p ∈ bg_colors,
    bg_line p.1 p.2 =
      (ESC ++ "[" ++ text_color p.2 ++ "m") ++ (ESC ++ "[" ++ p.2 ++ "m")
        ++ ljust p.1 15 ++ reset ++ " " ++ ljust (ansi_seq p.2) 10 ++ " Example text" ∧
    (ansi_seq p.2).data = "\\033[".data ++ p.2.data ++ ['m'] ∧
    ';' ∉ (ansi_seq p.2).data ∧
    (bg_line p.1 p.2).data.take 5 ≠ (ESC ++ "[" ++ text_color p.2 ++ ";").data := by
  decide

/-- Witness for C10 at the entry `("Black", "40")`. -/
theorem bg_line_two_sequences_witness :
    bg_line "Black" "40" =
      (ESC ++ "[" ++ text_color "40" ++ "m") ++ (ESC ++ "[" ++ "40" ++ "m")
        ++ ljust "Black" 15 ++ reset ++ " " ++ ljust (ansi_seq "40") 10 ++ " Example text" ∧
    (ansi_seq "40").data = "\\033[".data ++ "40".data ++ ['m'] ∧
    ';' ∉ (ansi_seq "40").data ∧
    (bg_line "Black" "40").data.take 5 ≠ (ESC ++ "[" ++ text_color "40" ++ ";").data :=
  bg_line_two_sequences ("Black", "40") (by decide)
